import Mathlib

/-!
Verification development for the sms-solvers repository.

The Rust source is shallowly embedded: strings are modelled as `List Char`
(error-message strings as `String`), `Duration` values as natural numbers of
milliseconds, and the asynchronous polling loop of
`SmsSolverService::wait_for_sms_code_cancellable` as a fuel-bounded
tail-recursive function over an oracle environment describing the provider's
responses.  Wall-clock time is modelled by the loop's own clock: each
`tokio::time::sleep(poll_interval)` advances elapsed time by `poll_interval`
milliseconds and the other operations are instantaneous.
-/

namespace SmsSolvers

/-- Rust `char::is_whitespace`: the Unicode `White_Space` characters,
written out explicitly by code point. -/
def rustIsWhitespace (c : Char) : Bool :=
  (0x09 ≤ c.toNat ∧ c.toNat ≤ 0x0D) ∨ c.toNat = 0x20 ∨
  c.toNat = 0x85 ∨ c.toNat = 0xA0 ∨ c.toNat = 0x1680 ∨
  (0x2000 ≤ c.toNat ∧ c.toNat ≤ 0x200A) ∨
  c.toNat = 0x2028 ∨ c.toNat = 0x2029 ∨ c.toNat = 0x202F ∨
  c.toNat = 0x205F ∨ c.toNat = 0x3000

/-- Rust `char::is_ascii_digit`: the characters `0` through `9`. -/
def isAsciiDigit (c : Char) : Bool :=
  0x30 ≤ c.toNat ∧ c.toNat ≤ 0x39

/-- Rust `str::trim`: remove leading and trailing whitespace. -/
def rustTrim (s : List Char) : List Char :=
  ((s.dropWhile rustIsWhitespace).reverse.dropWhile rustIsWhitespace).reverse

/-- Rust `str::strip_prefix`: if `p` is a prefix of `s`, return the rest of
`s` after `p`, otherwise `none`. -/
def chopPre : List Char → List Char → Option (List Char)
  | [], s => some s
  | _ :: _, [] => none
  | p :: ps, c :: cs => if c = p then chopPre ps cs else none

/-- `types.rs`: `TaskId(String)` — opaque task identifier. -/
structure TaskId where
  val : List Char
deriving DecidableEq, Repr

/-- `types.rs`: `SmsCode(String)` — the received verification code. -/
structure SmsCode where
  val : List Char
deriving DecidableEq, Repr

/-- `types.rs`: `FullNumber(String)` — full phone number as returned by the
provider, stored as-is (`FullNumber::new` is the identity on the string). -/
structure FullNumber where
  val : List Char
deriving DecidableEq, Repr

/-- `types.rs`: `DialCodeError`. -/
inductive DialCodeError where
  | NonDigit
  | Empty
deriving DecidableEq, Repr

/-- `types.rs`: `DialCode(String)` — digits-only dial code without `+`. -/
structure DialCode where
  val : List Char
deriving DecidableEq, Repr

/-- `types.rs`: `DialCode::new` — trim, strip all leading `+`, reject empty
and non-digit strings. -/
def DialCode.new (s : List Char) : Except DialCodeError DialCode :=
  if ((rustTrim s).dropWhile (· = '+')).isEmpty then .error .Empty
  else if ¬ ((rustTrim s).dropWhile (· = '+')).all isAsciiDigit then .error .NonDigit
  else .ok ⟨(rustTrim s).dropWhile (· = '+')⟩

/-- `types.rs`: `NumberError`. -/
inductive NumberError where
  | NonDigit
  | InvalidLength
  | LeadingZero
  | MissingDialCode
deriving DecidableEq, Repr

/-- `types.rs`: `Number(String)` — national number without dial code. -/
structure Number where
  val : List Char
deriving DecidableEq, Repr

/-- `types.rs`: `Number::new` — trim, then require all ASCII digits, length
between 4 and 14, and no leading `0`, in that order. -/
def Number.new (s : List Char) : Except NumberError Number :=
  if ¬ (rustTrim s).all isAsciiDigit then .error .NonDigit
  else if ¬ (4 ≤ (rustTrim s).length ∧ (rustTrim s).length ≤ 14) then
    .error .InvalidLength
  else if (rustTrim s).head? = some '0' then .error .LeadingZero
  else .ok ⟨rustTrim s⟩

/-- `types.rs`: `Number::from_full_number` — trim the full number, strip all
leading `+`, strip the dial-code prefix (failing with `MissingDialCode` if it
does not match), then validate the remainder with `Number::new`. -/
def Number.from_full_number (full : FullNumber) (dial_code : DialCode) :
    Except NumberError Number :=
  match chopPre dial_code.val ((rustTrim full.val).dropWhile (· = '+')) with
  | none => .error .MissingDialCode
  | some number_part => Number.new number_part

/-- ISO country code (`isocountry::CountryCode` in the source), modelled as
its alpha-2 string; the orchestration treats it as an opaque key into the
dial-code lookup table. -/
structure CountryCode where
  alpha2 : List Char
deriving DecidableEq, Repr

/-- A provider-level error value, as seen through the `RetryableError` trait
(`errors.rs`): a display string plus the two retryability classifications
`is_retryable` and `should_retry_operation`.  The orchestration and the retry
decorator only ever consult these three projections of a backend error. -/
structure ProviderError where
  msg : String
  retryable : Bool
  retryOp : Bool
deriving DecidableEq, Repr

/-- `errors.rs`: `RetryableError::is_retryable` for a provider error. -/
def ProviderError.is_retryable (e : ProviderError) : Bool := e.retryable

/-- `errors.rs`: `RetryableError::should_retry_operation` for a provider
error. -/
def ProviderError.should_retry_operation (e : ProviderError) : Bool := e.retryOp

/-- `types.rs`: `SmsTaskResult` — the aggregate returned by `get_number`. -/
structure SmsTaskResult where
  task_id : TaskId
  dial_code : DialCode
  number : Number
  full_number : FullNumber
  country : CountryCode
deriving DecidableEq, Repr

/-- `service/error.rs`: `SmsSolverServiceError`.  The boxed source error of
the `Provider` variant is kept as its display string; durations are
milliseconds. -/
inductive SmsSolverServiceError where
  | Provider (source : String) (is_retryable : Bool) (should_retry_operation : Bool)
  | NoNumbersAvailable (country : CountryCode)
  | InvalidDialCode (dial_code : String) (country : CountryCode)
  | NumberParse (full_number : List Char) (message : String)
  | SmsTimeout (timeout : Nat) (elapsed : Nat) (poll_count : Nat) (task_id : TaskId)
  | Cancelled (elapsed : Nat) (poll_count : Nat) (task_id : TaskId)
  | CancelFailed (task_id : TaskId) (message : String)
  | DialCodeBlacklisted (dial_code : DialCode) (task_id : TaskId)
  | NoAvailableDialCodes
deriving DecidableEq, Repr

/-- `service/error.rs`: `impl RetryableError for SmsSolverServiceError`,
`is_retryable`. -/
def SmsSolverServiceError.is_retryable : SmsSolverServiceError → Bool
  | .Provider _ is_retryable _ => is_retryable
  | .SmsTimeout _ _ _ _
  | .Cancelled _ _ _
  | .CancelFailed _ _
  | .NoNumbersAvailable _
  | .InvalidDialCode _ _
  | .NumberParse _ _
  | .DialCodeBlacklisted _ _
  | .NoAvailableDialCodes => false

/-- `service/error.rs`: `impl RetryableError for SmsSolverServiceError`,
`should_retry_operation`. -/
def SmsSolverServiceError.should_retry_operation : SmsSolverServiceError → Bool
  | .Provider _ _ should_retry_operation => should_retry_operation
  | .SmsTimeout _ _ _ _ => true
  | .NoNumbersAvailable _ => true
  | .Cancelled _ _ _
  | .CancelFailed _ _
  | .InvalidDialCode _ _
  | .NumberParse _ _
  | .DialCodeBlacklisted _ _
  | .NoAvailableDialCodes => false

/-- The `thiserror` display string of each `NumberError` variant
(`types.rs`), used by `get_number` when wrapping a parse failure. -/
def NumberError.toMessage : NumberError → String
  | .NonDigit => "number must contain only digits"
  | .InvalidLength => "number must be between 4 and 14 digits"
  | .LeadingZero => "number cannot start with 0"
  | .MissingDialCode => "dial code not found at the beginning of the number"

/-- `service/config.rs`: `ConfigError`. Durations are milliseconds. -/
inductive ConfigError where
  | TimeoutTooShort (timeout : Nat) (min : Nat)
  | PollIntervalTooShort (poll_interval : Nat) (min : Nat)
  | PollIntervalExceedsTimeout (poll_interval : Nat) (timeout : Nat)
deriving DecidableEq, Repr

/-- `service/config.rs`: `MIN_TIMEOUT = Duration::from_secs(10)`, in ms. -/
def MIN_TIMEOUT : Nat := 10000

/-- `service/config.rs`: `MIN_POLL_INTERVAL = Duration::from_millis(100)`. -/
def MIN_POLL_INTERVAL : Nat := 100

/-- `service/config.rs`: `SmsSolverServiceConfig`, durations in ms. -/
structure SmsSolverServiceConfig where
  timeout : Nat
  poll_interval : Nat
deriving DecidableEq, Repr

/-- `service/config.rs`: the `fast` preset (60 s timeout, 1 s interval). -/
def SmsSolverServiceConfig.fast : SmsSolverServiceConfig := ⟨60000, 1000⟩

/-- `service/config.rs`: the `balanced` preset (120 s timeout, 3 s
interval); also the `Default` config. -/
def SmsSolverServiceConfig.balanced : SmsSolverServiceConfig := ⟨120000, 3000⟩

/-- `service/config.rs`: the `patient` preset (300 s timeout, 5 s
interval). -/
def SmsSolverServiceConfig.patient : SmsSolverServiceConfig := ⟨300000, 5000⟩

/-- `service/config.rs`: `SmsSolverServiceConfig::validate` — reject a
timeout below `MIN_TIMEOUT`, then a poll interval below
`MIN_POLL_INTERVAL`, then a poll interval not strictly below the timeout. -/
def SmsSolverServiceConfig.validate (c : SmsSolverServiceConfig) :
    Except ConfigError Unit :=
  if c.timeout < MIN_TIMEOUT then
    .error (.TimeoutTooShort c.timeout MIN_TIMEOUT)
  else if c.poll_interval < MIN_POLL_INTERVAL then
    .error (.PollIntervalTooShort c.poll_interval MIN_POLL_INTERVAL)
  else if c.timeout ≤ c.poll_interval then
    .error (.PollIntervalExceedsTimeout c.poll_interval c.timeout)
  else
    .ok ()

/-- `service/config.rs`: `SmsSolverServiceConfigBuilder` — holds the two
durations, initialised from the `balanced` preset. -/
structure SmsSolverServiceConfigBuilder where
  timeout : Nat
  poll_interval : Nat
deriving DecidableEq, Repr

/-- `service/config.rs`: `SmsSolverServiceConfigBuilder::default()`. -/
def SmsSolverServiceConfigBuilder.mk₀ : SmsSolverServiceConfigBuilder :=
  ⟨SmsSolverServiceConfig.balanced.timeout, SmsSolverServiceConfig.balanced.poll_interval⟩

/-- `service/config.rs`: the builder's `timeout` setter. -/
def SmsSolverServiceConfigBuilder.withTimeout
    (b : SmsSolverServiceConfigBuilder) (t : Nat) : SmsSolverServiceConfigBuilder :=
  { b with timeout := t }

/-- `service/config.rs`: the builder's `poll_interval` setter. -/
def SmsSolverServiceConfigBuilder.withPollInterval
    (b : SmsSolverServiceConfigBuilder) (p : Nat) : SmsSolverServiceConfigBuilder :=
  { b with poll_interval := p }

/-- `service/config.rs`: `SmsSolverServiceConfigBuilder::build` — packs the
stored values into a config with no validation. -/
def SmsSolverServiceConfigBuilder.build (b : SmsSolverServiceConfigBuilder) :
    SmsSolverServiceConfig :=
  ⟨b.timeout, b.poll_interval⟩

/-- `service/config.rs`: `SmsSolverServiceConfigBuilder::try_build` — build
then validate. -/
def SmsSolverServiceConfigBuilder.try_build (b : SmsSolverServiceConfigBuilder) :
    Except ConfigError SmsSolverServiceConfig :=
  match b.build.validate with
  | .error e => .error e
  | .ok _ => .ok b.build

/-- `service/structure.rs`: `SmsSolverService::get_number`, with the two
external effects made explicit: `providerRes` is the outcome of the single
`provider.get_phone_number(country, service)` call, and `lookup` is the
`country_to_dial_code` table (`utils/dial_code.rs`, a pure
alpha-2-to-dial-code lookup whose JSON data is compiled in).  On a provider
error the two retryability flags are copied into a `Provider` service error;
a missing table entry yields `InvalidDialCode` (with the literal dial-code
string `unknown`); a failing `Number::from_full_number` yields `NumberParse`
with the variant's display message; otherwise the aggregate result is
returned. -/
def get_number (lookup : CountryCode → Option DialCode)
    (providerRes : Except ProviderError (TaskId × FullNumber))
    (country : CountryCode) : Except SmsSolverServiceError SmsTaskResult :=
  match providerRes with
  | .error e =>
      .error (.Provider e.msg e.is_retryable e.should_retry_operation)
  | .ok (task_id, full_number) =>
      match lookup country with
      | none => .error (.InvalidDialCode "unknown" country)
      | some dial_code =>
          match Number.from_full_number full_number dial_code with
          | .error e => .error (.NumberParse full_number.val e.toMessage)
          | .ok number => .ok ⟨task_id, dial_code, number, full_number, country⟩

/-- Oracle environment for one `wait_for_sms_code_cancellable` run: the
cancellation token's state at the start of each loop iteration, the result
of the `i`-th `provider.get_sms_code` call, and the result of the (at most
one) `provider.cancel_activation` call. -/
structure PollEnv where
  isCancelled : Nat → Bool
  pollRes : Nat → Except ProviderError (Option SmsCode)
  cancelRes : Except ProviderError Unit

instance {ε α : Type} [DecidableEq ε] [DecidableEq α] : DecidableEq (Except ε α) := fun
  | .ok a, .ok b =>
    if h : a = b then .isTrue (by rw [h])
    else .isFalse (by intro he; cases he; exact h rfl)
  | .ok _, .error _ => .isFalse (by intro h; cases h)
  | .error _, .ok _ => .isFalse (by intro h; cases h)
  | .error a, .error b =>
    if h : a = b then .isTrue (by rw [h])
    else .isFalse (by intro he; cases he; exact h rfl)

/-- Outcome of one `wait_for_sms_code_cancellable` run: the returned value
together with how many `get_sms_code` and `cancel_activation` calls the loop
issued. -/
structure WaitResult where
  result : Except SmsSolverServiceError SmsCode
  pollCalls : Nat
  cancelCalls : Nat
deriving DecidableEq, Repr

/-- The cancel-then-report pattern of `wait_for_sms_code_cancellable`: try
`provider.cancel_activation`; if it fails, the terminal error becomes
`CancelFailed` with the cancel error's display string, otherwise the
triggering error `fallback` is reported. -/
def cancelThen (task_id : TaskId) (cancelRes : Except ProviderError Unit)
    (fallback : SmsSolverServiceError) : SmsSolverServiceError :=
  match cancelRes with
  | .error e => .CancelFailed task_id e.msg
  | .ok _ => fallback

/-- The polling loop of `service/structure.rs`
`SmsSolverService::wait_for_sms_code_cancellable`, one constructor case per
loop iteration `i` with current elapsed time `elapsed` (ms) and current
`poll_count`.  Per iteration, in source order: the cancellation check, the
timeout check (`elapsed >= timeout`), then `poll_count += 1` and the
`get_sms_code` call — a code returns success, `None` and retryable errors
sleep `poll_interval` and continue, a non-retryable error takes the
cancel-then-report exit with a `Provider` error whose `is_retryable` is
`false`.  `fuel` bounds the recursion; `none` means the bound was hit. -/
def waitLoop (cfg : SmsSolverServiceConfig) (env : PollEnv) (task_id : TaskId) :
    Nat → Nat → Nat → Nat → Option WaitResult
  | 0, _, _, _ => none
  | fuel + 1, i, elapsed, poll_count =>
    if env.isCancelled i then
      some ⟨.error (cancelThen task_id env.cancelRes
              (.Cancelled elapsed poll_count task_id)), poll_count, 1⟩
    else if cfg.timeout ≤ elapsed then
      some ⟨.error (cancelThen task_id env.cancelRes
              (.SmsTimeout cfg.timeout elapsed poll_count task_id)), poll_count, 1⟩
    else
      match env.pollRes poll_count with
      | .ok (some code) => some ⟨.ok code, poll_count + 1, 0⟩
      | .ok none =>
          waitLoop cfg env task_id fuel (i + 1) (elapsed + cfg.poll_interval)
            (poll_count + 1)
      | .error e =>
          if e.is_retryable then
            waitLoop cfg env task_id fuel (i + 1) (elapsed + cfg.poll_interval)
              (poll_count + 1)
          else
            some ⟨.error (cancelThen task_id env.cancelRes
                    (.Provider e.msg false e.should_retry_operation)),
                  poll_count + 1, 1⟩

/-- `service/structure.rs`: `SmsSolverService` — a provider (here its oracle
environment) plus a configuration. -/
structure SmsSolverService where
  provider : PollEnv
  config : SmsSolverServiceConfig

/-- `service/structure.rs`: `SmsSolverService::new` — stores provider and
config unchanged. -/
def SmsSolverService.new (provider : PollEnv) (config : SmsSolverServiceConfig) :
    SmsSolverService :=
  ⟨provider, config⟩

/-- Fuel sufficient for any run whose poll interval is positive: with
instantaneous polls the clock reaches `timeout` after at most
`timeout / poll_interval + 1` sleeps. -/
def fuelBound (cfg : SmsSolverServiceConfig) : Nat :=
  cfg.timeout / cfg.poll_interval + 2

/-- `service/structure.rs`: `SmsSolverService::wait_for_sms_code_cancellable`
— run the polling loop from iteration `0`, `elapsed = 0`, `poll_count = 0`. -/
def SmsSolverService.wait_for_sms_code_cancellable (s : SmsSolverService)
    (task_id : TaskId) : Option WaitResult :=
  waitLoop s.config s.provider task_id (fuelBound s.config) 0 0 0

/-- `service/structure.rs`: `SmsSolverService::wait_for_sms_code` — the same
loop with a freshly created (hence never cancelled) cancellation token. -/
def SmsSolverService.wait_for_sms_code (s : SmsSolverService)
    (task_id : TaskId) : Option WaitResult :=
  SmsSolverService.wait_for_sms_code_cancellable
    ⟨{ s.provider with isCancelled := fun _ => false }, s.config⟩ task_id

/-- `utils/retry.rs`: `RetryConfig`.  Delays are milliseconds; the backoff
`factor` (an `f32` in the source) is modelled as a rational. -/
structure RetryConfig where
  min_delay : Nat
  max_delay : Nat
  factor : ℚ
  max_retries : Nat

/-- `utils/retry.rs`: `RetryConfig::default()` — 1 s min delay, 30 s max
delay, factor 2, 3 retries. -/
def RetryConfig.mk₀ : RetryConfig := ⟨1000, 30000, 2, 3⟩

/-- The `backon::ExponentialBuilder` parameters that
`RetryConfig::build_strategy` sets: min/max delay, factor, and
`max_times` (the maximum number of retries after the first attempt). -/
structure ExponentialBuilder where
  min_delay : Nat
  max_delay : Nat
  factor : ℚ
  max_times : Nat

/-- `utils/retry.rs`: `RetryConfig::build_strategy` — hands the four
configuration fields to the backoff builder unchanged. -/
def RetryConfig.build_strategy (c : RetryConfig) : ExponentialBuilder :=
  ⟨c.min_delay, c.max_delay, c.factor, c.max_retries⟩

/-- Modelled from the spec: the delay the retry decorator computes for
retry number `attempt` — `min(maxDelay, minDelay * factor^attempt)` (spec
§3, `RetryPolicy`).  The computation itself lives in the external `backon`
crate (`ExponentialBackoff`), which is not part of this repository. -/
def ExponentialBuilder.delayAt (b : ExponentialBuilder) (attempt : Nat) : ℚ :=
  min (b.max_delay : ℚ) ((b.min_delay : ℚ) * b.factor ^ attempt)

/-- Modelled from the spec: the retry loop that
`backon::Retryable::retry(...).when(|e| e.is_retryable())` executes around
one logical operation (spec §4.3; the loop itself lives in the external
`backon` crate).  `op k` is the outcome of invocation `k`; `budget` is the
remaining number of retries (`max_times`).  Invoke the operation; on
success return; on an error that is retryable while budget remains, retry;
otherwise propagate the error unchanged.  The second component counts the
invocations made.  The observer callback (`notify`) does not affect the
result and is omitted. -/
def retryRun {α : Type} (op : Nat → Except ProviderError α) :
    Nat → Nat → Except ProviderError α × Nat
  | 0, k =>
    match op k with
    | .ok a => (.ok a, k + 1)
    | .error e => (.error e, k + 1)
  | b + 1, k =>
    match op k with
    | .ok a => (.ok a, k + 1)
    | .error e =>
      if e.is_retryable then retryRun op b (k + 1) else (.error e, k + 1)

/-- A wrapped provider as the retry decorator sees it
(`providers/retryable/mod.rs`): the retried operations are indexed by
invocation number (each retry re-issues the call), `finish_activation` and
`cancel_activation` are single inner calls. -/
structure InnerProvider where
  get_phone_number : Nat → Except ProviderError (TaskId × FullNumber)
  get_sms_code : Nat → Except ProviderError (Option SmsCode)
  finish_activation : Except ProviderError Unit
  cancel_activation : Except ProviderError Unit

/-- `providers/retryable/mod.rs`: `SmsRetryableProvider` — an inner
provider plus a retry configuration. -/
structure SmsRetryableProvider where
  inner : InnerProvider
  retry_config : RetryConfig

/-- `providers/retryable/mod.rs`:
`SmsRetryableProvider::get_phone_number` — the inner call under the retry
loop built from `retry_config` with `when(is_retryable)`.  Returns the
result and the number of inner invocations. -/
def SmsRetryableProvider.get_phone_number (p : SmsRetryableProvider) :
    Except ProviderError (TaskId × FullNumber) × Nat :=
  retryRun p.inner.get_phone_number p.retry_config.max_retries 0

/-- `providers/retryable/mod.rs`: `SmsRetryableProvider::get_sms_code` —
the inner call under the same retry loop. -/
def SmsRetryableProvider.get_sms_code (p : SmsRetryableProvider) :
    Except ProviderError (Option SmsCode) × Nat :=
  retryRun p.inner.get_sms_code p.retry_config.max_retries 0

/-- `providers/retryable/mod.rs`:
`SmsRetryableProvider::finish_activation` — a direct pass-through: one
inner call, result returned unchanged, no retry loop. -/
def SmsRetryableProvider.finish_activation (p : SmsRetryableProvider) :
    Except ProviderError Unit × Nat :=
  (p.inner.finish_activation, 1)

/-- `providers/retryable/mod.rs`:
`SmsRetryableProvider::cancel_activation` — a direct pass-through: one
inner call, result returned unchanged, no retry loop. -/
def SmsRetryableProvider.cancel_activation (p : SmsRetryableProvider) :
    Except ProviderError Unit × Nat :=
  (p.inner.cancel_activation, 1)

/-- Discriminator for the `Cancelled` variant of the service error. -/
def isCancelledError : SmsSolverServiceError → Bool
  | .Cancelled _ _ _ => true
  | _ => false

/-- Concrete task id used by the witness runs. -/
def tidW : TaskId := ⟨['t', 'a', 's', 'k', '1', '2', '3']⟩

/-- Concrete verification code used by the witness runs. -/
def codeW : SmsCode := ⟨['1', '2', '3', '4', '5', '6']⟩

/-- Witness environment: the code arrives on the very first poll. -/
def envC1 : PollEnv := ⟨fun _ => false, fun _ => .ok (some codeW), .ok ()⟩

/-- Witness environment: token already cancelled, cancellation succeeds. -/
def envC2 : PollEnv := ⟨fun _ => true, fun _ => .ok none, .ok ()⟩

/-- Environment with an already-cancelled token whose
`cancel_activation` call fails. -/
def envC2bad : PollEnv :=
  ⟨fun _ => true, fun _ => .ok none, .error ⟨"cancel boom", false, false⟩⟩

/-- Witness environment: two polls return nothing, the third returns the
code. -/
def envC3 : PollEnv :=
  ⟨fun _ => false, fun i => if i < 2 then .ok none else .ok (some codeW), .ok ()⟩

/-- Witness environment: no cancellation, the SMS never arrives. -/
def envNoneW : PollEnv := ⟨fun _ => false, fun _ => .ok none, .ok ()⟩

/-- A non-retryable provider error for the retry-decorator witness. -/
def errC4 : ProviderError := ⟨"invalid api key", false, false⟩

/-- Witness inner provider that always fails with `errC4`. -/
def innerC4 : InnerProvider :=
  ⟨fun _ => .error errC4, fun _ => .error errC4, .ok (), .ok ()⟩

/-- Witness retry-decorated provider over `innerC4`. -/
def provC4 : SmsRetryableProvider := ⟨innerC4, RetryConfig.mk₀⟩

/-- Concrete country for the `get_number` witness. -/
def countryW : CountryCode := ⟨['T', 'R']⟩

/-- Concrete dial code for the `get_number` witness. -/
def dcW : DialCode := ⟨['9', '0']⟩

/-- Concrete full number for the `get_number` witness. -/
def fullW : FullNumber :=
  ⟨['9', '0', '5', '4', '8', '8', '2', '4', '2', '4', '7', '4']⟩

/-- Concrete national number for the `get_number` witness. -/
def numW : Number := ⟨['5', '4', '8', '8', '2', '4', '2', '4', '7', '4']⟩

/-- Witness dial-code lookup table containing only `countryW`. -/
def lookupW : CountryCode → Option DialCode :=
  fun c => if c = countryW then some dcW else none

/-- A retryable provider error for the `get_number` witness. -/
def provErrW : ProviderError := ⟨"network unreachable", true, true⟩

theorem head?_mem {c : Char} {s : List Char} (hc : s.head? = some c) : c ∈ s := by
  cases s with
  | nil => simp at hc
  | cons a t =>
    have ha : a = c := by simpa using hc
    subst ha
    exact List.mem_cons_self a t

theorem dropWhile_eq_self_of_head {p : Char → Bool} (s : List Char)
    (h : ∀ c, s.head? = some c → p c = false) : s.dropWhile p = s := by
  cases s with
  | nil => rfl
  | cons a t => simp [List.dropWhile_cons, h a rfl]

theorem not_ws_of_digit (c : Char) (h : isAsciiDigit c = true) :
    rustIsWhitespace c = false := by
  simp only [isAsciiDigit, decide_eq_true_eq] at h
  simp only [rustIsWhitespace, decide_eq_false_iff_not]
  omega

theorem not_plus_of_digit (c : Char) (h : isAsciiDigit c = true) :
    decide (c = '+') = false := by
  simp only [decide_eq_false_iff_not]
  intro hc
  subst hc
  exact absurd h (by decide)

theorem rustTrim_digits (s : List Char) (h : s.all isAsciiDigit = true) :
    rustTrim s = s := by
  unfold rustTrim
  have h1 : s.dropWhile rustIsWhitespace = s := by
    apply dropWhile_eq_self_of_head
    intro c hc
    exact not_ws_of_digit c (List.all_eq_true.mp h c (head?_mem hc))
  rw [h1]
  have h2 : s.reverse.dropWhile rustIsWhitespace = s.reverse := by
    apply dropWhile_eq_self_of_head
    intro c hc
    have hm : c ∈ s := List.mem_reverse.mp (head?_mem hc)
    exact not_ws_of_digit c (List.all_eq_true.mp h c hm)
  rw [h2, List.reverse_reverse]

theorem dropPlus_digits (s : List Char) (h : s.all isAsciiDigit = true) :
    s.dropWhile (fun c => decide (c = '+')) = s := by
  apply dropWhile_eq_self_of_head
  intro c hc
  exact not_plus_of_digit c (List.all_eq_true.mp h c (head?_mem hc))

theorem chopPre_append (d s : List Char) : chopPre d (d ++ s) = some s := by
  induction d with
  | nil => rfl
  | cons a t ih => simp [chopPre, ih]

theorem Number.new_valid (n : List Char) (h1 : n.all isAsciiDigit = true)
    (h2 : 4 ≤ n.length) (h3 : n.length ≤ 14) (h4 : n.head? ≠ some '0') :
    Number.new n = .ok ⟨n⟩ := by
  unfold Number.new
  rw [rustTrim_digits n h1]
  rw [if_neg (not_not_intro h1), if_neg (not_not_intro ⟨h2, h3⟩), if_neg h4]

/-- C8: national-number extraction round-trips with concatenation — for
every valid national number `n` (4–14 ASCII digits, not starting with `0`)
and every valid dial code `d` (non-empty, all ASCII digits),
`Number::from_full_number(FullNumber::new(d ++ n), d)` returns `Ok(n)`. -/
theorem claim_c8 (d n : List Char) (_hd1 : d ≠ [])
    (hd2 : d.all isAsciiDigit = true) (hn1 : n.all isAsciiDigit = true)
    (hn2 : 4 ≤ n.length) (hn3 : n.length ≤ 14) (hn4 : n.head? ≠ some '0') :
    Number.from_full_number ⟨d ++ n⟩ ⟨d⟩ = .ok ⟨n⟩ := by
  unfold Number.from_full_number
  have hall : (d ++ n).all isAsciiDigit = true := by
    simp only [List.all_append, Bool.and_eq_true]
    exact ⟨hd2, hn1⟩
  rw [rustTrim_digits _ hall, dropPlus_digits _ hall, chopPre_append]
  exact Number.new_valid n hn1 hn2 hn3 hn4

theorem claim_c8_witness :
    Number.from_full_number ⟨dcW.val ++ numW.val⟩ ⟨dcW.val⟩ = .ok ⟨numW.val⟩ :=
  claim_c8 dcW.val numW.val (by decide) (by decide) (by decide) (by decide)
    (by decide) (by decide)

/-- C7: the service-level retryability classification — `SmsTimeout` is not
task-retryable but is operation-retryable; `Cancelled`, `CancelFailed`,
`InvalidDialCode` and `NumberParse` carry `false` on both axes; a `Provider`
error reports exactly the two flags it was constructed with. -/
theorem claim_c7 :
    (∀ t e p tid, (SmsSolverServiceError.SmsTimeout t e p tid).is_retryable = false ∧
        (SmsSolverServiceError.SmsTimeout t e p tid).should_retry_operation = true) ∧
    (∀ e p tid, (SmsSolverServiceError.Cancelled e p tid).is_retryable = false ∧
        (SmsSolverServiceError.Cancelled e p tid).should_retry_operation = false) ∧
    (∀ tid m, (SmsSolverServiceError.CancelFailed tid m).is_retryable = false ∧
        (SmsSolverServiceError.CancelFailed tid m).should_retry_operation = false) ∧
    (∀ dc c, (SmsSolverServiceError.InvalidDialCode dc c).is_retryable = false ∧
        (SmsSolverServiceError.InvalidDialCode dc c).should_retry_operation = false) ∧
    (∀ fn m, (SmsSolverServiceError.NumberParse fn m).is_retryable = false ∧
        (SmsSolverServiceError.NumberParse fn m).should_retry_operation = false) ∧
    (∀ src r ro, (SmsSolverServiceError.Provider src r ro).is_retryable = r ∧
        (SmsSolverServiceError.Provider src r ro).should_retry_operation = ro) :=
  ⟨fun _ _ _ _ => ⟨rfl, rfl⟩, fun _ _ _ => ⟨rfl, rfl⟩, fun _ _ => ⟨rfl, rfl⟩,
   fun _ _ => ⟨rfl, rfl⟩, fun _ _ => ⟨rfl, rfl⟩, fun _ _ _ => ⟨rfl, rfl⟩⟩

/-- C9: configuration validation — `validate` accepts exactly the configs
with `timeout ≥ 10 s`, `poll_interval ≥ 100 ms` and `poll_interval <
timeout`; a too-short timeout, a too-short poll interval and an ordering
violation are each reported as their own `ConfigError` variant, checked in
that precedence; and the three presets validate successfully. -/
theorem claim_c9 :
    (∀ c : SmsSolverServiceConfig,
        c.validate = .ok () ↔
          MIN_TIMEOUT ≤ c.timeout ∧ MIN_POLL_INTERVAL ≤ c.poll_interval ∧
            c.poll_interval < c.timeout) ∧
    (∀ c : SmsSolverServiceConfig, c.timeout < MIN_TIMEOUT →
        c.validate = .error (.TimeoutTooShort c.timeout MIN_TIMEOUT)) ∧
    (∀ c : SmsSolverServiceConfig, MIN_TIMEOUT ≤ c.timeout →
        c.poll_interval < MIN_POLL_INTERVAL →
        c.validate = .error (.PollIntervalTooShort c.poll_interval MIN_POLL_INTERVAL)) ∧
    (∀ c : SmsSolverServiceConfig, MIN_TIMEOUT ≤ c.timeout →
        MIN_POLL_INTERVAL ≤ c.poll_interval → c.timeout ≤ c.poll_interval →
        c.validate = .error (.PollIntervalExceedsTimeout c.poll_interval c.timeout)) ∧
    SmsSolverServiceConfig.fast.validate = .ok () ∧
    SmsSolverServiceConfig.balanced.validate = .ok () ∧
    SmsSolverServiceConfig.patient.validate = .ok () := by
  refine ⟨?_, ?_, ?_, ?_, by decide, by decide, by decide⟩
  · intro c
    unfold SmsSolverServiceConfig.validate
    split_ifs with h1 h2 h3 <;> simp_all [MIN_TIMEOUT, MIN_POLL_INTERVAL]
  · intro c h
    unfold SmsSolverServiceConfig.validate
    rw [if_pos h]
  · intro c h1 h2
    unfold SmsSolverServiceConfig.validate
    rw [if_neg (not_lt.mpr h1), if_pos h2]
  · intro c h1 h2 h3
    unfold SmsSolverServiceConfig.validate
    rw [if_neg (not_lt.mpr h1), if_neg (not_lt.mpr h2), if_pos h3]

theorem claim_c9_witness :
    SmsSolverServiceConfig.validate ⟨5000, 3000⟩ =
      .error (.TimeoutTooShort 5000 10000) ∧
    SmsSolverServiceConfig.validate ⟨20000, 50⟩ =
      .error (.PollIntervalTooShort 50 100) ∧
    SmsSolverServiceConfig.validate ⟨20000, 20000⟩ =
      .error (.PollIntervalExceedsTimeout 20000 20000) ∧
    SmsSolverServiceConfig.fast.validate = .ok () :=
  ⟨claim_c9.2.1 ⟨5000, 3000⟩ (by decide),
   claim_c9.2.2.1 ⟨20000, 50⟩ (by decide) (by decide),
   claim_c9.2.2.2.1 ⟨20000, 20000⟩ (by decide) (by decide) (by decide),
   claim_c9.2.2.2.2.1⟩

/-- C6: the exponential-backoff delay — for any retry configuration with
backoff factor at least 1, the delay for retry `attempt` equals
`min(maxDelay, minDelay * factor^attempt)`, is monotonically non-decreasing
in `attempt`, and never exceeds `maxDelay`. -/
theorem claim_c6 (cfg : RetryConfig) (hf : 1 ≤ cfg.factor) :
    (∀ attempt, cfg.build_strategy.delayAt attempt =
        min (cfg.max_delay : ℚ) ((cfg.min_delay : ℚ) * cfg.factor ^ attempt)) ∧
    (∀ a b, a ≤ b →
        cfg.build_strategy.delayAt a ≤ cfg.build_strategy.delayAt b) ∧
    (∀ attempt, cfg.build_strategy.delayAt attempt ≤ (cfg.max_delay : ℚ)) := by
  refine ⟨fun _ => rfl, ?_, fun _ => min_le_left _ _⟩
  intro a b hab
  unfold ExponentialBuilder.delayAt RetryConfig.build_strategy
  apply min_le_min (le_refl _)
  exact mul_le_mul_of_nonneg_left (pow_le_pow_right₀ hf hab) (Nat.cast_nonneg _)

theorem claim_c6_witness :
    RetryConfig.mk₀.build_strategy.delayAt 5 ≤ (RetryConfig.mk₀.max_delay : ℚ) ∧
    RetryConfig.mk₀.build_strategy.delayAt 1 ≤ RetryConfig.mk₀.build_strategy.delayAt 3 :=
  ⟨(claim_c6 RetryConfig.mk₀ (by norm_num [RetryConfig.mk₀])).2.2 5,
   (claim_c6 RetryConfig.mk₀ (by norm_num [RetryConfig.mk₀])).2.1 1 3 (by norm_num)⟩

theorem retryRun_stop {α : Type} (op : Nat → Except ProviderError α)
    (budget k : Nat) (e : ProviderError) (hop : op k = .error e)
    (he : e.is_retryable = false) :
    retryRun op budget k = (.error e, k + 1) := by
  cases budget <;> simp [retryRun, hop, he]

/-- C4: the retry decorator and non-retryable errors — if the wrapped
provider fails with an error whose `is_retryable()` is `false`, both
`get_phone_number` and `get_sms_code` invoke the underlying operation
exactly once and propagate the error value unchanged, whatever
`max_retries` is configured; `finish_activation` and `cancel_activation`
are single pass-through calls to the inner provider. -/
theorem claim_c4 (p : SmsRetryableProvider) (e : ProviderError)
    (he : e.is_retryable = false) :
    (p.inner.get_phone_number 0 = .error e →
        p.get_phone_number = (.error e, 1)) ∧
    (p.inner.get_sms_code 0 = .error e → p.get_sms_code = (.error e, 1)) ∧
    p.finish_activation = (p.inner.finish_activation, 1) ∧
    p.cancel_activation = (p.inner.cancel_activation, 1) := by
  refine ⟨fun hop => ?_, fun hop => ?_, rfl, rfl⟩
  · exact retryRun_stop _ _ _ e hop he
  · exact retryRun_stop _ _ _ e hop he

theorem claim_c4_witness :
    provC4.get_phone_number = (.error errC4, 1) ∧
    provC4.get_sms_code = (.error errC4, 1) ∧
    provC4.finish_activation = (provC4.inner.finish_activation, 1) :=
  ⟨(claim_c4 provC4 errC4 rfl).1 rfl, (claim_c4 provC4 errC4 rfl).2.1 rfl,
   (claim_c4 provC4 errC4 rfl).2.2.1⟩

/-- C5: `get_number` step order and outcomes — a provider failure becomes a
`Provider` service error carrying the original error's two retryability
flags; with a successful acquisition, a missing dial-code table entry
becomes the distinct `InvalidDialCode` error; a failing national-number
extraction becomes the distinct `NumberParse` error carrying the parse
error's message; otherwise the full `SmsTaskResult` aggregate is
returned. -/
theorem claim_c5 (lookup : CountryCode → Option DialCode)
    (res : Except ProviderError (TaskId × FullNumber)) (country : CountryCode) :
    (∀ e, res = .error e → get_number lookup res country =
        .error (.Provider e.msg e.is_retryable e.should_retry_operation)) ∧
    (∀ tid full, res = .ok (tid, full) → lookup country = none →
        get_number lookup res country =
          .error (.InvalidDialCode ("unknown") country)) ∧
    (∀ tid full dc err, res = .ok (tid, full) → lookup country = some dc →
        Number.from_full_number full dc = .error err →
        get_number lookup res country =
          .error (.NumberParse full.val err.toMessage)) ∧
    (∀ tid full dc num, res = .ok (tid, full) → lookup country = some dc →
        Number.from_full_number full dc = .ok num →
        get_number lookup res country = .ok ⟨tid, dc, num, full, country⟩) := by
  refine ⟨?_, ?_, ?_, ?_⟩
  · intro e hres
    subst hres
    rfl
  · intro tid full hres hl
    subst hres
    simp [get_number, hl]
  · intro tid full dc err hres hl hparse
    subst hres
    simp [get_number, hl, hparse]
  · intro tid full dc num hres hl hparse
    subst hres
    simp [get_number, hl, hparse]

theorem claim_c5_witness :
    get_number lookupW (.error provErrW) countryW =
      .error (.Provider ("network unreachable") true true) ∧
    get_number lookupW (.ok (tidW, fullW)) countryW =
      .ok ⟨tidW, dcW, numW, fullW, countryW⟩ :=
  ⟨(claim_c5 lookupW (.error provErrW) countryW).1 provErrW rfl,
   (claim_c5 lookupW (.ok (tidW, fullW)) countryW).2.2.2 tidW fullW dcW numW rfl
     (by simp [lookupW]) (by decide)⟩

/-- C10: construction never validates — the config builder's `build` packs
exactly the stored timeout and poll interval with no validation check,
`SmsSolverService::new` stores the config unchanged, `try_build` succeeds
exactly when `validate` does, and a service built with an invalid config
(here 50 ms timeout, 60 ms poll interval, rejected by `validate`) still
runs its polling loop to a result. -/
theorem claim_c10 :
    (∀ t pi, ((SmsSolverServiceConfigBuilder.mk₀.withTimeout t).withPollInterval pi).build
        = ⟨t, pi⟩) ∧
    (∀ env cfg, (SmsSolverService.new env cfg).config = cfg) ∧
    (∀ b : SmsSolverServiceConfigBuilder,
        b.try_build = .ok b.build ↔ b.build.validate = .ok ()) ∧
    SmsSolverServiceConfig.validate ⟨50, 60⟩ = .error (.TimeoutTooShort 50 10000) ∧
    (∀ tid, (SmsSolverService.new envNoneW ⟨50, 60⟩).wait_for_sms_code_cancellable tid
        = some ⟨.error (.SmsTimeout 50 60 1 tid), 1, 1⟩) := by
  refine ⟨fun t pi => rfl, fun env cfg => rfl, ?_, rfl, fun tid => rfl⟩
  intro b
  unfold SmsSolverServiceConfigBuilder.try_build
  cases h : b.build.validate with
  | error e => simp [h]
  | ok u => cases u; simp [h]

theorem waitLoop_cancel_spec (cfg : SmsSolverServiceConfig) (env : PollEnv)
    (tid : TaskId) :
    ∀ (fuel i elapsed pc : Nat) (r : WaitResult),
      waitLoop cfg env tid fuel i elapsed pc = some r →
      ((∃ c, r.result = .ok c) → r.cancelCalls = 0) ∧
      ((∃ e, r.result = .error e) → r.cancelCalls = 1 ∧
          ∀ ce, env.cancelRes = .error ce →
            r.result = .error (.CancelFailed tid ce.msg)) := by
  intro fuel
  induction fuel with
  | zero =>
    intro i elapsed pc r h
    simp [waitLoop] at h
  | succ f ih =>
    intro i elapsed pc r h
    rw [waitLoop] at h
    split at h
    · -- cancellation branch: terminal with one cancel call
      injection h with h2
      subst h2
      refine ⟨?_, ?_⟩
      · rintro ⟨c, hc2⟩
        simp at hc2
      · rintro ⟨e, -⟩
        refine ⟨rfl, fun ce hce => ?_⟩
        simp [cancelThen, hce]
    · split at h
      · -- timeout branch: terminal with one cancel call
        injection h with h2
        subst h2
        refine ⟨?_, ?_⟩
        · rintro ⟨c, hc2⟩
          simp at hc2
        · rintro ⟨e, -⟩
          refine ⟨rfl, fun ce hce => ?_⟩
          simp [cancelThen, hce]
      · -- poll branch
        split at h
        · -- code received: success with no cancel call
          injection h with h2
          subst h2
          refine ⟨fun _ => rfl, ?_⟩
          rintro ⟨e, he2⟩
          simp at he2
        · -- not yet received: continue polling
          exact ih _ _ _ _ h
        · -- poll error
          split at h
          · -- retryable: continue polling
            exact ih _ _ _ _ h
          · -- permanent: terminal with one cancel call
            injection h with h2
            subst h2
            refine ⟨?_, ?_⟩
            · rintro ⟨c, hc2⟩
              simp at hc2
            · rintro ⟨e, -⟩
              refine ⟨rfl, fun ce hce => ?_⟩
              simp [cancelThen, hce]

/-- C1: cancel-exactly-once cleanup — any terminating run of
`wait_for_sms_code_cancellable` makes no `cancel_activation` call on the
`Success` path and exactly one on every error path; and whenever that
single cancel call fails, the returned error is `CancelFailed` carrying the
task id and the cancel error's message, in place of the triggering
`Cancelled` / `SmsTimeout` / `Provider` error. -/
theorem claim_c1 (s : SmsSolverService) (tid : TaskId) (r : WaitResult)
    (h : s.wait_for_sms_code_cancellable tid = some r) :
    ((∃ c, r.result = .ok c) → r.cancelCalls = 0) ∧
    ((∃ e, r.result = .error e) → r.cancelCalls = 1 ∧
        ∀ ce, s.provider.cancelRes = .error ce →
          r.result = .error (.CancelFailed tid ce.msg)) :=
  waitLoop_cancel_spec s.config s.provider tid _ 0 0 0 r h

theorem claim_c1_witness :
    ((⟨.ok codeW, 1, 0⟩ : WaitResult).cancelCalls = 0) ∧
    ((⟨.error (.CancelFailed tidW ("cancel boom")), 0, 1⟩ : WaitResult).cancelCalls = 1) :=
  ⟨(claim_c1 (SmsSolverService.new envC1 .fast) tidW ⟨.ok codeW, 1, 0⟩ rfl).1
     ⟨codeW, rfl⟩,
   ((claim_c1 (SmsSolverService.new envC2bad .fast) tidW
       ⟨.error (.CancelFailed tidW ("cancel boom")), 0, 1⟩ rfl).2
     ⟨.CancelFailed tidW ("cancel boom"), rfl⟩).1⟩

theorem waitLoop_cancelled_step (cfg : SmsSolverServiceConfig) (env : PollEnv)
    (tid : TaskId) (f i elapsed pc : Nat) (hc : env.isCancelled i = true) :
    waitLoop cfg env tid (f + 1) i elapsed pc =
      some ⟨.error (cancelThen tid env.cancelRes (.Cancelled elapsed pc tid)),
            pc, 1⟩ := by
  rw [waitLoop]
  simp [hc]

/-- C2 (amended): the cancellation check precedes the timeout check and the
poll — a call whose cancellation token is already cancelled at the first
loop iteration issues zero `get_sms_code` calls and exactly one
`cancel_activation` call, and returns the `Cancelled` error with
`poll_count == 0` when that cancel call succeeds; when the cancel call
fails, the returned error is `CancelFailed` instead (still with zero polls
and one cancel call). -/
theorem claim_c2 (s : SmsSolverService) (tid : TaskId)
    (hc : s.provider.isCancelled 0 = true) :
    (s.provider.cancelRes = .ok () →
        s.wait_for_sms_code_cancellable tid =
          some ⟨.error (.Cancelled 0 0 tid), 0, 1⟩) ∧
    (∀ ce, s.provider.cancelRes = .error ce →
        s.wait_for_sms_code_cancellable tid =
          some ⟨.error (.CancelFailed tid ce.msg), 0, 1⟩) := by
  have hstep : s.wait_for_sms_code_cancellable tid =
      some ⟨.error (cancelThen tid s.provider.cancelRes (.Cancelled 0 0 tid)),
            0, 1⟩ := by
    unfold SmsSolverService.wait_for_sms_code_cancellable fuelBound
    exact waitLoop_cancelled_step s.config s.provider tid
      (s.config.timeout / s.config.poll_interval + 1) 0 0 0 hc
  constructor
  · intro hok
    rw [hstep, hok]
    rfl
  · intro ce hce
    rw [hstep, hce]
    rfl

theorem claim_c2_counterexample :
    (SmsSolverService.new envC2bad .fast).wait_for_sms_code_cancellable tidW =
      some ⟨.error (.CancelFailed tidW ("cancel boom")), 0, 1⟩ ∧
    isCancelledError (.CancelFailed tidW ("cancel boom")) = false :=
  ⟨rfl, rfl⟩

theorem claim_c2_witness :
    (SmsSolverService.new envC2 .fast).wait_for_sms_code_cancellable tidW =
      some ⟨.error (.Cancelled 0 0 tidW), 0, 1⟩ :=
  (claim_c2 (SmsSolverService.new envC2 .fast) tidW rfl).1 rfl

theorem waitLoop_success_aux (cfg : SmsSolverServiceConfig) (env : PollEnv)
    (tid : TaskId) (code : SmsCode) (N : Nat)
    (hnc : ∀ i, i ≤ N → env.isCancelled i = false)
    (hpoll : ∀ i, i < N → env.pollRes i = .ok none)
    (hlast : env.pollRes N = .ok (some code))
    (hT : (N + 1) * cfg.poll_interval < cfg.timeout) :
    ∀ fuel j, j ≤ N → N - j < fuel →
      waitLoop cfg env tid fuel j (j * cfg.poll_interval) j =
        some ⟨.ok code, N + 1, 0⟩ := by
  intro fuel
  induction fuel with
  | zero =>
    intro j hj hf
    exact absurd hf (Nat.not_lt_zero _)
  | succ f ih =>
    intro j hj hf
    have hcj : env.isCancelled j = false := hnc j hj
    have htj : ¬ (cfg.timeout ≤ j * cfg.poll_interval) := by
      have hle : j * cfg.poll_interval ≤ (N + 1) * cfg.poll_interval :=
        Nat.mul_le_mul_right _ (by omega)
      omega
    rcases Nat.lt_or_ge j N with hjN | hjN
    · have hpj := hpoll j hjN
      rw [waitLoop, if_neg (by simp [hcj]), if_neg htj, hpj]
      show waitLoop cfg env tid f (j + 1)
          (j * cfg.poll_interval + cfg.poll_interval) (j + 1) =
        some ⟨.ok code, N + 1, 0⟩
      have harith : j * cfg.poll_interval + cfg.poll_interval =
          (j + 1) * cfg.poll_interval := by ring
      rw [harith]
      exact ih (j + 1) (by omega) (by omega)
    · have hj' : j = N := by omega
      subst hj'
      rw [waitLoop, if_neg (by simp [hcj]), if_neg htj, hlast]

/-- C3: the success path — if the provider returns no code on the first `N`
polls and a code on poll `N + 1`, the token is never cancelled during those
iterations, the poll interval is positive and `(N + 1) * poll_interval <
timeout`, then `wait_for_sms_code_cancellable` returns that code with poll
count `N + 1` and makes no `cancel_activation` call. -/
theorem claim_c3 (s : SmsSolverService) (tid : TaskId) (code : SmsCode) (N : Nat)
    (hpi : 0 < s.config.poll_interval)
    (hT : (N + 1) * s.config.poll_interval < s.config.timeout)
    (hnc : ∀ i, i ≤ N → s.provider.isCancelled i = false)
    (hpoll : ∀ i, i < N → s.provider.pollRes i = .ok none)
    (hlast : s.provider.pollRes N = .ok (some code)) :
    s.wait_for_sms_code_cancellable tid = some ⟨.ok code, N + 1, 0⟩ := by
  unfold SmsSolverService.wait_for_sms_code_cancellable
  have hfuel : N - 0 < fuelBound s.config := by
    unfold fuelBound
    have h1 : N + 1 ≤ s.config.timeout / s.config.poll_interval :=
      (Nat.le_div_iff_mul_le hpi).mpr (le_of_lt hT)
    omega
  have hrun := waitLoop_success_aux s.config s.provider tid code N hnc hpoll
    hlast hT (fuelBound s.config) 0 (Nat.zero_le N) hfuel
  simpa using hrun

theorem claim_c3_witness :
    (SmsSolverService.new envC3 .fast).wait_for_sms_code_cancellable tidW =
      some ⟨.ok codeW, 3, 0⟩ :=
  claim_c3 (SmsSolverService.new envC3 .fast) tidW codeW 2 (by decide)
    (by decide) (fun _ _ => rfl)
    (fun i hi => by simp [SmsSolverService.new, envC3, hi]) rfl

end SmsSolvers

